import Mathlib

/-!
Verification of go-cfr2, a command-line client for Cloudflare R2.

The development shallowly embeds the relevant parts of the Go source:

* `r2/operations.go` — the progress-reporting wrappers (`progressWriter.Write`,
  `progressReader.Read`), `DownloadObject`'s total-size determination,
  `ListObjects`, `DeleteObject`, `RenameObject`, and the presigned-URL pair.
* `config` package — `R2Config`, the environment-variable override step and
  the required-field validation of `LoadConfig`.
* `main.go` — the download output-path resolution of `handleDownloadCommand`
  and the presign expiry default of `handlePresignCommand`.

External effects (the S3 network calls, the filesystem, environment lookup)
are modelled by explicit oracles or state passing; machine `int64` values are
modelled by `Int` (no claim here depends on 64-bit wraparound), and the
`float64` expressions of the progress wrappers by exact rational arithmetic
extended with signed infinities and NaN, which is enough to capture the
division-by-zero behaviour those expressions can exhibit.
-/

/-- An idealised model of Go `float64` values as they arise in the progress
wrappers: exact rationals plus the IEEE special values. Rounding is not
modelled; only the operations the wrappers perform are defined. -/
inductive GoFloat where
  | finite : ℚ → GoFloat
  | posInf : GoFloat
  | negInf : GoFloat
  | nan : GoFloat
deriving DecidableEq

/-- IEEE-754 division restricted to the cases reachable from the wrappers:
a finite numerator over a finite denominator, with the zero-denominator
behaviour (±Inf, or NaN for 0/0) of `float64`. -/
def fdiv : GoFloat → GoFloat → GoFloat
  | .finite a, .finite b =>
    if b = 0 then (if a = 0 then .nan else if 0 < a then .posInf else .negInf)
    else .finite (a / b)
  | .posInf, .finite b => if 0 ≤ b then .posInf else .negInf
  | .negInf, .finite b => if 0 ≤ b then .negInf else .posInf
  | _, _ => .nan

/-- IEEE-754 multiplication restricted to the cases reachable from the
wrappers (a possibly infinite left operand times a finite constant). -/
def fmul : GoFloat → GoFloat → GoFloat
  | .finite a, .finite b => .finite (a * b)
  | .posInf, .finite b => if 0 < b then .posInf else if b < 0 then .negInf else .nan
  | .negInf, .finite b => if 0 < b then .negInf else if b < 0 then .posInf else .nan
  | .finite a, .posInf => if 0 < a then .posInf else if a < 0 then .negInf else .nan
  | .finite a, .negInf => if 0 < a then .negInf else if a < 0 then .posInf else .nan
  | .posInf, .posInf => .posInf
  | .posInf, .negInf => .negInf
  | .negInf, .posInf => .negInf
  | .negInf, .negInf => .posInf
  | _, _ => .nan

/-- The progress line `fmt.Fprintf(os.Stdout, "\r%d / %d (%.2f%%)", ...)`
renders: the transferred count, the total, and the percentage value. The
percentage field is always part of the rendered line. -/
structure ProgressLine where
  transferred : Int
  total : Int
  percentage : GoFloat
deriving DecidableEq

/-- `progressWriter.Write` (operations.go lines 84-99) after a successful
inner write of `n` bytes: bump the transferred counter and render
`percentage := float64(pw.transferred) / float64(pw.total) * 100`.
Returns the new transferred counter and the rendered line. -/
def progressWriterWrite (total transferred n : Int) : Int × ProgressLine :=
  let t := transferred + n
  (t, ⟨t, total, fmul (fdiv (.finite (t : ℚ)) (.finite (total : ℚ))) (.finite 100)⟩)

/-- `progressReader.Read` (operations.go lines 109-124) after a successful
inner read of `n` bytes: bump the transferred counter and render
`percentage := float64(pr.transferred) / float64(pr.total) * 10`.
Returns the new transferred counter and the rendered line. -/
def progressReaderRead (total transferred n : Int) : Int × ProgressLine :=
  let t := transferred + n
  (t, ⟨t, total, fmul (fdiv (.finite (t : ℚ)) (.finite (total : ℚ))) (.finite 10)⟩)

/-- `DownloadObject`'s total-size determination (operations.go lines 145-151):
`totalSize` stays `0` when the response carries no `ContentLength`. -/
def downloadTotalSize : Option Int → Int
  | some l => l
  | none => 0

/-- `R2Config` (config package): the four configuration fields. -/
structure R2Config where
  AccountID : String
  AccessKeyID : String
  SecretAccessKey : String
  DefaultBucket : String
deriving DecidableEq

/-- The zero value `&R2Config{}` that `LoadConfig` starts from. -/
def emptyR2Config : R2Config := ⟨"", "", "", ""⟩

/-- The four environment variables `LoadConfig` consults. Go's `os.Getenv`
returns `""` both for an unset variable and for one set to the empty string,
so each field here is the `Getenv` result. -/
structure EnvVars where
  accountID : String
  accessKeyID : String
  secretAccessKey : String
  defaultBucket : String
deriving DecidableEq

/-- Step 2 of `LoadConfig` (part_000 lines 38-50): each field whose
environment variable is non-empty overwrites the file-derived value. -/
def applyEnvOverrides (cfg : R2Config) (env : EnvVars) : R2Config :=
  let cfg1 := if env.accountID ≠ "" then { cfg with AccountID := env.accountID } else cfg
  let cfg2 := if env.accessKeyID ≠ "" then { cfg1 with AccessKeyID := env.accessKeyID } else cfg1
  let cfg3 := if env.secretAccessKey ≠ "" then { cfg2 with SecretAccessKey := env.secretAccessKey } else cfg2
  if env.defaultBucket ≠ "" then { cfg3 with DefaultBucket := env.defaultBucket } else cfg3

/-- The error message for a missing `AccountID` (part_000 line 54). -/
def accountIDMissingMsg (p : String) : String :=
  "AccountID is not set. Please provide it in " ++ p ++ " or via CFR2_ACCOUNT_ID environment variable"

/-- The error message for a missing `AccessKeyID` (part_000 line 57). -/
def accessKeyIDMissingMsg (p : String) : String :=
  "AccessKeyID is not set. Please provide it in " ++ p ++ " or via CFR2_ACCESS_KEY_ID environment variable"

/-- The error message for a missing `SecretAccessKey` (part_000 line 60). -/
def secretAccessKeyMissingMsg (p : String) : String :=
  "SecretAccessKey is not set. Please provide it in " ++ p ++ " or via CFR2_SECRET_ACCESS_KEY environment variable"

/-- The error message for a missing `DefaultBucket` (part_000 line 63). -/
def defaultBucketMissingMsg (p : String) : String :=
  "DefaultBucket is not set. Please provide it in " ++ p ++ " or via CFR2_DEFAULT_BUCKET environment variable"

/-- Step 3 of `LoadConfig` (part_000 lines 52-64): required-field validation
in source order, naming the first empty field. -/
def validateConfig (expandedPath : String) (cfg : R2Config) : Except String R2Config :=
  if cfg.AccountID = "" then .error (accountIDMissingMsg expandedPath)
  else if cfg.AccessKeyID = "" then .error (accessKeyIDMissingMsg expandedPath)
  else if cfg.SecretAccessKey = "" then .error (secretAccessKeyMissingMsg expandedPath)
  else if cfg.DefaultBucket = "" then .error (defaultBucketMissingMsg expandedPath)
  else .ok cfg

/-- `LoadConfig` (part_000 lines 23-67). `fileExists` models `os.Stat`
succeeding on the expanded config path; `fileRead` models the combined
read-and-unmarshal step (its `Except.error` carries the wrapped read or
unmarshal failure). When the file is absent the zero config is used; then
the environment overrides are applied and the result validated. -/
def LoadConfig (expandedPath : String) (fileExists : Bool)
    (fileRead : Except String R2Config) (env : EnvVars) : Except String R2Config :=
  match (if fileExists then fileRead else .ok emptyR2Config) with
  | .error e => .error e
  | .ok cfg => validateConfig expandedPath (applyEnvOverrides cfg env)

/-- A single-bucket object store: an association of object keys to object
contents. The bucket name is threaded through the operations verbatim (it
only appears in error messages and in the `CopySource` string). -/
def Store := List (String × String)

/-- Key lookup in the store. -/
def storeGet : Store → String → Option String
  | [], _ => none
  | (k, v) :: rest, key => if k = key then some v else storeGet rest key

/-- Remove every binding of a key (the effect of a successful S3 delete;
deleting an absent key succeeds and is a no-op). -/
def storeErase : Store → String → Store
  | [], _ => []
  | (k, v) :: rest, key =>
    if k = key then storeErase rest key else (k, v) :: storeErase rest key

/-- Bind a key to a content (the effect of a successful S3 copy landing on
the destination key): last write wins. -/
def storePut (s : Store) (k v : String) : Store := (k, v) :: storeErase s k

/-- Failure oracles for the two network calls `RenameObject` makes: whether
the `CopyObject` call (given bucket, source key, destination key) and the
`DeleteObject` call (given bucket, key) fail on the wire. -/
structure ClientModel where
  copyFails : String → String → String → Bool
  deleteFails : String → String → Bool

/-- The S3 calls an operation issues, in order. -/
inductive S3Call where
  | copy (bucket copySource dstKey : String)
  | delete (bucket key : String)
deriving DecidableEq

/-- Semantics of the SDK call `client.CopyObject`: fails when the oracle says
so or the source key is absent; on success the destination key holds the
source content. A failed call leaves the store unchanged. -/
def copyObjectCall (c : ClientModel) (st : Store) (bucket srcKey dstKey : String) :
    Option String × Store :=
  if c.copyFails bucket srcKey dstKey then (some "api error", st)
  else match storeGet st srcKey with
    | none => (some "NoSuchKey", st)
    | some v => (none, storePut st dstKey v)

/-- Semantics of the SDK call `client.DeleteObject`: fails when the oracle
says so; on success the key is removed (absent keys delete successfully). A
failed call leaves the store unchanged. -/
def deleteObjectCall (c : ClientModel) (st : Store) (bucket key : String) :
    Option String × Store :=
  if c.deleteFails bucket key then (some "api error", st)
  else (none, storeErase st key)

/-- `DeleteObject` (operations.go lines 38-50): one `client.DeleteObject`
call, wrapping a failure with the object and bucket context. -/
def DeleteObject (c : ClientModel) (st : Store) (bucket key : String) :
    Option String × Store :=
  match deleteObjectCall c st bucket key with
  | (some e, st1) =>
    (some ("failed to delete object \x27" ++ key ++ "\x27 from bucket \x27" ++ bucket ++ "\x27: " ++ e), st1)
  | (none, st1) => (none, st1)

/-- The outcome of `RenameObject`: the returned error (if any), the store
afterwards, and the S3 calls issued in order. -/
structure RenameResult where
  err : Option String
  store : Store
  calls : List S3Call

/-- `RenameObject` (operations.go lines 53-74): copy `oldKey` to `newKey`
(with `CopySource = bucket ++ "/" ++ oldKey`), return a wrapped error if the
copy fails, otherwise delete the original via `DeleteObject`, wrapping a
delete failure with the distinguishing copy-successful message. -/
def RenameObject (c : ClientModel) (st : Store) (bucket oldKey newKey : String) : RenameResult :=
  let copySource := bucket ++ "/" ++ oldKey
  match copyObjectCall c st bucket oldKey newKey with
  | (some e, st1) =>
    ⟨some ("failed to copy object from \x27" ++ oldKey ++ "\x27 to \x27" ++ newKey ++
        "\x27 in bucket \x27" ++ bucket ++ "\x27: " ++ e),
      st1, [.copy bucket copySource newKey]⟩
  | (none, st1) =>
    match DeleteObject c st1 bucket oldKey with
    | (some e, st2) =>
      ⟨some ("copy successful but failed to delete original object \x27" ++ oldKey ++
          "\x27 from bucket \x27" ++ bucket ++ "\x27: " ++ e),
        st2, [.copy bucket copySource newKey, .delete bucket oldKey]⟩
    | (none, st2) => ⟨none, st2, [.copy bucket copySource newKey, .delete bucket oldKey]⟩

/-- Claim C1: the upload wrapper renders one tenth of what the download
wrapper renders. The download percentage is `transferred/total*100`, the
upload percentage `transferred/total*10`; for a positive total both are
finite and the reader value is one tenth of the writer value. -/
theorem upload_percentage_tenth_of_download (total transferred n : Int) (h : 0 < total) :
    (progressReaderRead total transferred n).2.percentage =
      .finite (((transferred + n : Int) : ℚ) / ((total : Int) : ℚ) * 10) ∧
    (progressWriterWrite total transferred n).2.percentage =
      .finite (((transferred + n : Int) : ℚ) / ((total : Int) : ℚ) * 100) ∧
    ∃ q : ℚ, (progressReaderRead total transferred n).2.percentage = .finite q ∧
      (progressWriterWrite total transferred n).2.percentage = .finite (10 * q) := by
  have htQ : ((total : Int) : ℚ) ≠ 0 := by
    exact_mod_cast Int.ne_of_gt h
  have hkey : ((transferred + n : Int) : ℚ) / ((total : Int) : ℚ) * 100 =
      10 * (((transferred + n : Int) : ℚ) / ((total : Int) : ℚ) * 10) := by ring
  refine ⟨?_, ?_, ?_⟩
  · simp [progressReaderRead, fdiv, fmul, htQ]
  · simp [progressWriterWrite, fdiv, fmul, htQ]
  · refine ⟨((transferred + n : Int) : ℚ) / ((total : Int) : ℚ) * 10, ?_, ?_⟩
    · simp [progressReaderRead, fdiv, fmul, htQ]
    · rw [← hkey]
      simp [progressWriterWrite, fdiv, fmul, htQ]

/-- Witness for C1 at total = 4, transferred = 1, n = 1. -/
theorem upload_percentage_tenth_of_download_witness :
    ∃ q : ℚ, (progressReaderRead 4 1 1).2.percentage = .finite q ∧
      (progressWriterWrite 4 1 1).2.percentage = .finite (10 * q) :=
  (upload_percentage_tenth_of_download 4 1 1 (by decide)).2.2

/-- Claim C2: when the response carries no content-length, `DownloadObject`
sets the total to 0, and the very next `progressWriter.Write` still renders
a percentage — computed as `transferred/0*100`, i.e. a division by the zero
total, yielding +Inf — contradicting the code's own warning that the
percentage will not be shown. Evaluated at the failing input: no
content-length, first write of 5 bytes. -/
theorem download_unknown_total_renders_division_by_zero :
    downloadTotalSize none = 0 ∧
    (progressWriterWrite (downloadTotalSize none) 0 5).2.percentage = .posInf := by
  constructor
  · rfl
  · simp [downloadTotalSize, progressWriterWrite, fdiv, fmul]

/-- Claim C3: for each of the four fields, a non-empty environment variable
overwrites the file-derived value, and an unset-or-empty one keeps it. -/
theorem env_overrides_file (cfg : R2Config) (env : EnvVars) :
    ((env.accountID ≠ "" → (applyEnvOverrides cfg env).AccountID = env.accountID) ∧
     (env.accountID = "" → (applyEnvOverrides cfg env).AccountID = cfg.AccountID)) ∧
    ((env.accessKeyID ≠ "" → (applyEnvOverrides cfg env).AccessKeyID = env.accessKeyID) ∧
     (env.accessKeyID = "" → (applyEnvOverrides cfg env).AccessKeyID = cfg.AccessKeyID)) ∧
    ((env.secretAccessKey ≠ "" → (applyEnvOverrides cfg env).SecretAccessKey = env.secretAccessKey) ∧
     (env.secretAccessKey = "" → (applyEnvOverrides cfg env).SecretAccessKey = cfg.SecretAccessKey)) ∧
    ((env.defaultBucket ≠ "" → (applyEnvOverrides cfg env).DefaultBucket = env.defaultBucket) ∧
     (env.defaultBucket = "" → (applyEnvOverrides cfg env).DefaultBucket = cfg.DefaultBucket)) := by
  simp only [applyEnvOverrides]
  split_ifs <;> simp_all

/-- Lookup of a key in the store after erasing that key finds nothing. -/
theorem storeGet_erase_self (s : Store) (k : String) : storeGet (storeErase s k) k = none := by
  induction s with
  | nil => rfl
  | cons p rest ih =>
    obtain ⟨a, b⟩ := p
    by_cases h : a = k
    · simp [storeErase, h, ih]
    · simp [storeErase, storeGet, h, ih]

/-- Erasing one key does not change the lookup of another. -/
theorem storeGet_erase_ne (s : Store) (k key : String) (h : key ≠ k) :
    storeGet (storeErase s k) key = storeGet s key := by
  have hk : k ≠ key := Ne.symm h
  induction s with
  | nil => rfl
  | cons p rest ih =>
    obtain ⟨a, b⟩ := p
    by_cases hak : a = k
    · subst hak
      simp [storeErase, storeGet, hk, ih]
    · by_cases hakey : a = key
      · subst hakey
        simp [storeErase, storeGet, hak, ih]
      · simp [storeErase, storeGet, hak, hakey, ih]

/-- Lookup of the key just put finds the new content. -/
theorem storeGet_put_self (s : Store) (k v : String) : storeGet (storePut s k v) k = some v := by
  simp [storePut, storeGet]

/-- Putting one key does not change the lookup of another. -/
theorem storeGet_put_ne (s : Store) (k key v : String) (h : key ≠ k) :
    storeGet (storePut s k v) key = storeGet s key := by
  have hk : k ≠ key := fun hh => h hh.symm
  simp [storePut, storeGet, hk, storeGet_erase_ne s k key h]

/-- A failed `CopyObject` call leaves the store unchanged. -/
theorem copyObjectCall_fail_store (c : ClientModel) (st : Store) (b o n : String)
    (h : (copyObjectCall c st b o n).1.isSome = true) :
    (copyObjectCall c st b o n).2 = st := by
  by_cases hf : c.copyFails b o n
  · simp [copyObjectCall, hf]
  · cases hg : storeGet st o with
    | none => simp [copyObjectCall, hf, hg]
    | some v => simp [copyObjectCall, hf, hg] at h

/-- Claim C4: when the copy step fails, `RenameObject` returns an error, the
store is exactly the initial store, and the only S3 call issued is the copy
(no delete is attempted). -/
theorem rename_copy_fail_preserves_store (c : ClientModel) (st : Store)
    (bucket oldKey newKey : String)
    (h : (copyObjectCall c st bucket oldKey newKey).1.isSome = true) :
    (RenameObject c st bucket oldKey newKey).err.isSome = true ∧
    (RenameObject c st bucket oldKey newKey).store = st ∧
    (RenameObject c st bucket oldKey newKey).calls =
      [.copy bucket (bucket ++ "/" ++ oldKey) newKey] := by
  have hst := copyObjectCall_fail_store c st bucket oldKey newKey h
  unfold RenameObject
  rcases hc : copyObjectCall c st bucket oldKey newKey with ⟨e, st1⟩
  rw [hc] at h hst
  cases e with
  | none => simp at h
  | some msg => simp_all

/-- A client whose copy call always fails on the wire. -/
def clientCopyFailing : ClientModel := ⟨fun _ _ _ => true, fun _ _ => false⟩

/-- Witness for C4: a failing copy of key a to key z over a one-object store. -/
theorem rename_copy_fail_preserves_store_witness :
    (RenameObject clientCopyFailing [("a", "x")] "b" "a" "z").err.isSome = true ∧
    (RenameObject clientCopyFailing [("a", "x")] "b" "a" "z").store = [("a", "x")] ∧
    (RenameObject clientCopyFailing [("a", "x")] "b" "a" "z").calls =
      [.copy "b" ("b" ++ "/" ++ "a") "z"] :=
  rename_copy_fail_preserves_store clientCopyFailing [("a", "x")] "b" "a" "z" (by decide)

/-- Claim C5: when the copy succeeds and the delete of the old key fails,
`RenameObject` returns the distinguishing copy-successful error, both the
old and the new key hold the content afterwards, and no further call beyond
the one copy and the one delete (in particular no rollback copy) is issued. -/
theorem rename_delete_fail_keeps_both (c : ClientModel) (st : Store)
    (bucket oldKey newKey v : String)
    (hcopy : c.copyFails bucket oldKey newKey = false)
    (hsrc : storeGet st oldKey = some v)
    (hdel : c.deleteFails bucket oldKey = true) :
    (∃ e, (RenameObject c st bucket oldKey newKey).err =
      some ("copy successful but failed to delete original object \x27" ++ oldKey ++
        "\x27 from bucket \x27" ++ bucket ++ "\x27: " ++ e)) ∧
    storeGet (RenameObject c st bucket oldKey newKey).store oldKey = some v ∧
    storeGet (RenameObject c st bucket oldKey newKey).store newKey = some v ∧
    (RenameObject c st bucket oldKey newKey).calls =
      [.copy bucket (bucket ++ "/" ++ oldKey) newKey, .delete bucket oldKey] := by
  have hren : RenameObject c st bucket oldKey newKey =
      ⟨some ("copy successful but failed to delete original object \x27" ++ oldKey ++
          "\x27 from bucket \x27" ++ bucket ++ "\x27: " ++
          ("failed to delete object \x27" ++ oldKey ++ "\x27 from bucket \x27" ++ bucket ++
            "\x27: " ++ "api error")),
        storePut st newKey v,
        [.copy bucket (bucket ++ "/" ++ oldKey) newKey, .delete bucket oldKey]⟩ := by
    unfold RenameObject copyObjectCall DeleteObject deleteObjectCall
    simp [hcopy, hsrc, hdel]
  refine ⟨⟨_, by rw [hren]⟩, ?_, ?_, by rw [hren]⟩
  · rw [hren]
    by_cases hk : oldKey = newKey
    · subst hk
      exact storeGet_put_self st oldKey v
    · rw [storeGet_put_ne st newKey oldKey v hk]
      exact hsrc
  · rw [hren]
    exact storeGet_put_self st newKey v

/-- A client whose delete call always fails on the wire. -/
def clientDeleteFailing : ClientModel := ⟨fun _ _ _ => false, fun _ _ => true⟩

/-- Witness for C5: copy succeeds, delete fails, over a one-object store. -/
theorem rename_delete_fail_keeps_both_witness :
    (∃ e, (RenameObject clientDeleteFailing [("a", "x")] "b" "a" "z").err =
      some ("copy successful but failed to delete original object \x27" ++ "a" ++
        "\x27 from bucket \x27" ++ "b" ++ "\x27: " ++ e)) ∧
    storeGet (RenameObject clientDeleteFailing [("a", "x")] "b" "a" "z").store "a" = some "x" ∧
    storeGet (RenameObject clientDeleteFailing [("a", "x")] "b" "a" "z").store "z" = some "x" ∧
    (RenameObject clientDeleteFailing [("a", "x")] "b" "a" "z").calls =
      [.copy "b" ("b" ++ "/" ++ "a") "z", .delete "b" "a"] :=
  rename_delete_fail_keeps_both clientDeleteFailing [("a", "x")] "b" "a" "z" "x"
    (by decide) (by decide) (by decide)

/-- Claim C10: `RenameObject` has no guard against `oldKey = newKey`: it
issues the self-copy and, the copy succeeding, the delete of the key, so the
object ends up removed from the store. -/
theorem rename_same_key_removes_object (c : ClientModel) (st : Store) (bucket k v : String)
    (hcopy : c.copyFails bucket k k = false)
    (hsrc : storeGet st k = some v)
    (hdel : c.deleteFails bucket k = false) :
    (RenameObject c st bucket k k).calls =
      [.copy bucket (bucket ++ "/" ++ k) k, .delete bucket k] ∧
    (RenameObject c st bucket k k).err = none ∧
    storeGet (RenameObject c st bucket k k).store k = none := by
  have hren : RenameObject c st bucket k k =
      ⟨none, storeErase (storePut st k v) k,
        [.copy bucket (bucket ++ "/" ++ k) k, .delete bucket k]⟩ := by
    unfold RenameObject copyObjectCall DeleteObject deleteObjectCall
    simp [hcopy, hsrc, hdel]
  refine ⟨by rw [hren], by rw [hren], ?_⟩
  rw [hren]
  exact storeGet_erase_self (storePut st k v) k

/-- A client whose calls all succeed on the wire. -/
def clientAllOk : ClientModel := ⟨fun _ _ _ => false, fun _ _ => false⟩

/-- Witness for C10: renaming key a onto itself over a one-object store. -/
theorem rename_same_key_removes_object_witness :
    (RenameObject clientAllOk [("a", "x")] "b" "a" "a").calls =
      [.copy "b" ("b" ++ "/" ++ "a") "a", .delete "b" "a"] ∧
    (RenameObject clientAllOk [("a", "x")] "b" "a" "a").err = none ∧
    storeGet (RenameObject clientAllOk [("a", "x")] "b" "a" "a").store "a" = none :=
  rename_same_key_removes_object clientAllOk [("a", "x")] "b" "a" "x"
    (by decide) (by decide) (by decide)

/-- An object descriptor as `ListObjects` returns them (`types.Object`):
the key and the optional size. -/
structure S3Object where
  key : String
  size : Option Int
deriving DecidableEq

/-- The paginator loop of `ListObjects` (operations.go lines 26-32): the
paginator is a list of page results; each successful page appends its
contents to the accumulator, the first failed page aborts with a wrapped
error, discarding the accumulator. -/
def listObjectsLoop : List (Except String (List S3Object)) → List S3Object →
    Except String (List S3Object)
  | [], acc => .ok acc
  | .error e :: _, _ => .error ("failed to list objects: " ++ e)
  | .ok page :: rest, acc => listObjectsLoop rest (acc ++ page)

/-- `ListObjects` (operations.go lines 18-35): drain every page, starting
from the empty accumulator `allObjects`. -/
def ListObjects (pages : List (Except String (List S3Object))) :
    Except String (List S3Object) :=
  listObjectsLoop pages []

/-- Splitting a character list on the path separator. -/
def splitSlashAux : List Char → List Char → List String
  | [], cur => [String.mk cur.reverse]
  | c :: rest, cur =>
    if c = '/' then String.mk cur.reverse :: splitSlashAux rest []
    else splitSlashAux rest (c :: cur)

/-- `strings.Split(path, "/")` as Go's `filepath.Clean` consumes it. -/
def splitSlash (s : String) : List String := splitSlashAux s.toList []

/-- Whether a path is rooted (begins with the separator). -/
def isRooted (s : String) : Bool :=
  match s.toList with
  | c :: _ => c = '/'
  | [] => false

/-- Joining path components back with the separator. -/
def joinWithSlash : List String → String
  | [] => ""
  | [c] => c
  | c :: c2 :: rest => c ++ "/" ++ joinWithSlash (c2 :: rest)

/-- The element loop of Go's lexical `filepath.Clean`: skip empty and dot
components, resolve dot-dot against the output stack (dropping a non-dot-dot
top, erasing at the root, keeping dot-dot otherwise), push the rest. -/
def goCleanLoop (rooted : Bool) : List String → List String → List String
  | [], acc => acc.reverse
  | c :: rest, acc =>
    if c = "" ∨ c = "." then goCleanLoop rooted rest acc
    else if c = ".." then
      match acc with
      | [] => if rooted then goCleanLoop rooted rest [] else goCleanLoop rooted rest [".."]
      | a :: accTail =>
        if a = ".." then goCleanLoop rooted rest (".." :: a :: accTail)
        else goCleanLoop rooted rest accTail
    else goCleanLoop rooted rest (c :: acc)

/-- Go's `filepath.Clean` (unix separators): shortest lexical equivalent
path, `"."` for an empty result, keeping the leading separator of a rooted
path. -/
def goClean (path : String) : String :=
  if path = "" then "."
  else
    let rooted := isRooted path
    let out := joinWithSlash (goCleanLoop rooted (splitSlash path) [])
    if rooted then (if out = "" then "/" else "/" ++ out)
    else (if out = "" then "." else out)

/-- Go's `filepath.Join` for two elements: drop empty elements, join with
the separator, `Clean` the result (`""` when both are empty). -/
def goJoin (a b : String) : String :=
  if a = "" ∧ b = "" then ""
  else if a = "" then goClean b
  else if b = "" then goClean a
  else goClean (a ++ "/" ++ b)

/-- Go's `filepath.Base` (unix): `"."` for the empty path, trailing
separators stripped, the last component, `"/"` for an all-separator path. -/
def goBase (path : String) : String :=
  if path = "" then "."
  else
    let rchars := path.toList.reverse.dropWhile (fun c => c = '/')
    if rchars = [] then "/"
    else String.mk ((rchars.takeWhile (fun c => c ≠ '/')).reverse)

/-- `s.map` over characters: `strings.ReplaceAll(objectKey, "/", "_")` for
the single-character pattern. -/
def goReplaceSlash (s : String) : String :=
  String.mk (s.toList.map (fun c => if c = '/' then '_' else c))

/-- The output-path resolution of `handleDownloadCommand` (main.go lines
103-114): no `-o` defaults to the key with separators replaced by
underscores joined onto the current directory; `-o` naming an existing
directory (the `isDir` oracle models `os.Stat` succeeding with a directory)
gets the key's base name appended; otherwise the `-o` value is used as is. -/
def resolveOutputPath (outputPath objectKey : String) (isDir : String → Bool) : String :=
  if outputPath = "" then goJoin "." (goReplaceSlash objectKey)
  else if isDir outputPath then goJoin outputPath (goBase objectKey)
  else outputPath

/-- The nanosecond count of Go's `time.Hour`. -/
def timeHourNs : Int := 3600 * 1000000000

/-- `GeneratePresignedURLWithExpiry` (operations.go lines 206-222): one
presign call (the oracle takes bucket, key and the expiry duration in
nanoseconds), failures wrapped with object and bucket context. -/
def GeneratePresignedURLWithExpiry (presign : String → String → Int → Except String String)
    (bucket key : String) (expiry : Int) : Except String String :=
  match presign bucket key expiry with
  | .error e =>
    .error ("failed to generate presigned URL for object \x27" ++ key ++
      "\x27 in bucket \x27" ++ bucket ++ "\x27: " ++ e)
  | .ok url => .ok url

/-- `GeneratePresignedURL` (operations.go lines 201-203): the no-expiry
variant delegates with `24*time.Hour`. -/
def GeneratePresignedURL (presign : String → String → Int → Except String String)
    (bucket key : String) : Except String String :=
  GeneratePresignedURLWithExpiry presign bucket key (24 * timeHourNs)

/-- The default of the `-e`/`--expiry` flag of `handlePresignCommand`
(main.go lines 249-250), in hours. -/
def presignExpiryFlagDefault : Int := 24

/-- `handlePresignCommand`'s conversion of the flag value to the duration it
passes on (main.go line 261): `time.Duration(*expiryHours) * time.Hour`. -/
def presignExpiryDuration (expiryHours : Int) : Int := expiryHours * timeHourNs

/-- Draining pages that all succeed accumulates their concatenation. -/
theorem listObjectsLoop_all_ok (pages : List (List S3Object)) :
    ∀ acc, listObjectsLoop (pages.map Except.ok) acc = .ok (acc ++ pages.flatten) := by
  induction pages with
  | nil => intro acc; simp [listObjectsLoop]
  | cons p rest ih => intro acc; simp [listObjectsLoop, ih, List.append_assoc]

/-- The first failing page aborts the drain with the wrapped error,
whatever was accumulated before. -/
theorem listObjectsLoop_first_error (e : String)
    (post : List (Except String (List S3Object))) (pre : List (List S3Object)) :
    ∀ acc, listObjectsLoop (pre.map Except.ok ++ .error e :: post) acc =
      .error ("failed to list objects: " ++ e) := by
  induction pre with
  | nil => intro acc; simp [listObjectsLoop]
  | cons p rest ih => intro acc; simp [listObjectsLoop, ih]

/-- Claim C6: `ListObjects` fully materializes the listing. When every page
succeeds it returns the in-order concatenation of the pages; the first
failing page yields the wrapped error with no partial result; an empty
paginator, or one empty page (an empty bucket), yields the empty list, not
an error. -/
theorem listObjects_drains_all_pages :
    (∀ pages : List (List S3Object), ListObjects (pages.map Except.ok) = .ok pages.flatten) ∧
    (∀ (pre : List (List S3Object)) (e : String)
      (post : List (Except String (List S3Object))),
      ListObjects (pre.map Except.ok ++ .error e :: post) =
        .error ("failed to list objects: " ++ e)) ∧
    ListObjects [] = .ok [] ∧
    ListObjects [.ok []] = .ok [] := by
  refine ⟨fun pages => ?_, fun pre e post => ?_, rfl, rfl⟩
  · simpa using listObjectsLoop_all_ok pages []
  · exact listObjectsLoop_first_error e post pre []

/-- With a readable (or absent) file, `LoadConfig` reduces to validating the
merged configuration. -/
theorem loadConfig_merge (path : String) (fe : Bool) (fcfg : R2Config) (env : EnvVars) :
    LoadConfig path fe (.ok fcfg) env =
      validateConfig path (applyEnvOverrides (if fe then fcfg else emptyR2Config) env) := by
  cases fe <;> rfl

/-- Validation succeeds exactly when the four fields are non-empty. -/
theorem validateConfig_ok_iff (path : String) (cfg : R2Config) :
    (∃ c, validateConfig path cfg = .ok c) ↔
      (cfg.AccountID ≠ "" ∧ cfg.AccessKeyID ≠ "" ∧
       cfg.SecretAccessKey ≠ "" ∧ cfg.DefaultBucket ≠ "") := by
  unfold validateConfig
  split_ifs <;> simp_all

/-- A validation error is the message of an empty field. -/
theorem validateConfig_error_names_field (path : String) (cfg : R2Config) (msg : String)
    (h : validateConfig path cfg = .error msg) :
    (cfg.AccountID = "" ∧ msg = accountIDMissingMsg path) ∨
    (cfg.AccessKeyID = "" ∧ msg = accessKeyIDMissingMsg path) ∨
    (cfg.SecretAccessKey = "" ∧ msg = secretAccessKeyMissingMsg path) ∨
    (cfg.DefaultBucket = "" ∧ msg = defaultBucketMissingMsg path) := by
  unfold validateConfig at h
  split_ifs at h <;> simp_all

/-- Claim C7: with the file step not failing (the file is absent, or reads
and parses), `LoadConfig` succeeds exactly when all four required fields are
non-empty after the merge; a missing file alone is never an error (the load
proceeds to the merge and validation); and a failure is the `ConfigError`
message naming an empty field. -/
theorem loadConfig_ok_iff_fields_nonempty (path : String) (fe : Bool)
    (fcfg : R2Config) (env : EnvVars) :
    (∀ fr : Except String R2Config,
      LoadConfig path false fr env =
        validateConfig path (applyEnvOverrides emptyR2Config env)) ∧
    ((∃ c, LoadConfig path fe (.ok fcfg) env = .ok c) ↔
      ((applyEnvOverrides (if fe then fcfg else emptyR2Config) env).AccountID ≠ "" ∧
       (applyEnvOverrides (if fe then fcfg else emptyR2Config) env).AccessKeyID ≠ "" ∧
       (applyEnvOverrides (if fe then fcfg else emptyR2Config) env).SecretAccessKey ≠ "" ∧
       (applyEnvOverrides (if fe then fcfg else emptyR2Config) env).DefaultBucket ≠ "")) ∧
    (∀ msg, LoadConfig path fe (.ok fcfg) env = .error msg →
      (((applyEnvOverrides (if fe then fcfg else emptyR2Config) env).AccountID = "" ∧
          msg = accountIDMissingMsg path) ∨
       ((applyEnvOverrides (if fe then fcfg else emptyR2Config) env).AccessKeyID = "" ∧
          msg = accessKeyIDMissingMsg path) ∨
       ((applyEnvOverrides (if fe then fcfg else emptyR2Config) env).SecretAccessKey = "" ∧
          msg = secretAccessKeyMissingMsg path) ∨
       ((applyEnvOverrides (if fe then fcfg else emptyR2Config) env).DefaultBucket = "" ∧
          msg = defaultBucketMissingMsg path))) := by
  refine ⟨fun fr => rfl, ?_, ?_⟩
  · rw [loadConfig_merge]
    exact validateConfig_ok_iff path (applyEnvOverrides (if fe then fcfg else emptyR2Config) env)
  · intro msg h
    rw [loadConfig_merge] at h
    exact validateConfig_error_names_field path _ msg h

/-- Claim C8: the download destination is the slash-to-underscore key joined
onto the current directory when `-o` is omitted, the directory joined with
the key's base name when `-o` names an existing directory, and the `-o`
value verbatim otherwise; in particular `download -k docs/a.txt` without
`-o` resolves to `docs_a.txt` in the current directory. -/
theorem download_output_path_resolution (outputPath objectKey : String)
    (isDir : String → Bool) :
    (outputPath = "" →
      resolveOutputPath outputPath objectKey isDir = goJoin "." (goReplaceSlash objectKey)) ∧
    (outputPath ≠ "" → isDir outputPath = true →
      resolveOutputPath outputPath objectKey isDir = goJoin outputPath (goBase objectKey)) ∧
    (outputPath ≠ "" → isDir outputPath = false →
      resolveOutputPath outputPath objectKey isDir = outputPath) ∧
    resolveOutputPath "" "docs/a.txt" isDir = "docs_a.txt" := by
  refine ⟨?_, ?_, ?_, ?_⟩
  · intro h; simp [resolveOutputPath, h]
  · intro h hd; simp [resolveOutputPath, h, hd]
  · intro h hd; simp [resolveOutputPath, h, hd]
  · have hred : resolveOutputPath "" "docs/a.txt" isDir =
        goJoin "." (goReplaceSlash "docs/a.txt") := by
      simp [resolveOutputPath]
    rw [hred]
    decide

/-- Claim C9: the no-expiry presign variant equals the with-expiry variant
at a 24-hour duration for every presign oracle, bucket and key, and the CLI
expiry flag defaults to 24 hours (the duration the handler would pass on is
exactly 24 hours). -/
theorem presign_default_expiry_24h (presign : String → String → Int → Except String String)
    (bucket key : String) :
    GeneratePresignedURL presign bucket key =
      GeneratePresignedURLWithExpiry presign bucket key (24 * timeHourNs) ∧
    presignExpiryFlagDefault = 24 ∧
    presignExpiryDuration presignExpiryFlagDefault = 24 * timeHourNs := by
  exact ⟨rfl, rfl, rfl⟩
